import Mathlib

set_option linter.dupNamespace false

/-!
Shallow embedding of `pkg/othell/othell.go` (package `othell`), a thin
observability-initialization helper.  External collaborators (GCE metadata
server, OpenTelemetry autoexport, stdout trace exporter, metric reader) are
modelled by an explicit `Env` record fixed for the process run; process-wide
mutable defaults (`otel.SetTracerProvider`, `otel.SetMeterProvider`,
`otel.SetTextMapPropagator`, `slog.SetDefault`) are modelled by an explicit
`Globals` record threaded through the computation.
-/

namespace Othell

/-- Opaque resource metadata descriptor (`*resource.Resource` in the source).
The package treats it as an opaque pointer, so we model it abstractly. -/
structure Resource where
  id : Nat
deriving DecidableEq, Repr

/-- Opaque span exporter produced by `autoexport.NewSpanExporter`. -/
structure SpanExporter where
  id : Nat
deriving DecidableEq, Repr

/-- Console exporter produced by `stdouttrace.New(stdouttrace.WithPrettyPrint())`;
`pretty` records whether the pretty-print option was passed at construction. -/
structure ConsoleExporter where
  pretty : Bool
deriving DecidableEq, Repr

/-- Opaque metric reader produced by `autoexport.NewMetricReader`. -/
structure MetricReader where
  id : Nat
deriving DecidableEq, Repr

/-- A span processor attached to a tracer provider:
`sdktrace.NewBatchSpanProcessor` over the autodetected exporter, or
`sdktrace.NewSimpleSpanProcessor` over the console exporter. -/
inductive SpanProcessor where
  | batch (e : SpanExporter)
  | simple (e : ConsoleExporter)
deriving DecidableEq, Repr

/-- Sampling policy; the source only ever uses `sdktrace.AlwaysSample()`. -/
inductive Sampler where
  | alwaysSample
deriving DecidableEq, Repr

/-- The tracer provider built by `sdktrace.NewTracerProvider(options...)`:
the sampler, the span processors in attachment order, and the resource. -/
structure TracerProvider where
  sampler : Sampler
  processors : List SpanProcessor
  res : Option Resource
deriving DecidableEq, Repr

/-- The meter provider built by `sdkmetric.NewMeterProvider`. -/
structure MeterProvider where
  reader : MetricReader
  res : Option Resource
deriving DecidableEq, Repr

/-- A named tracer obtained from `otel.Tracer(name)`: the provider it was
looked up from (the global default at lookup time) and its name. -/
structure Tracer where
  provider : Option TracerProvider
  name : String
deriving DecidableEq, Repr

/-- A named meter obtained from `otel.Meter(name)`. -/
structure Meter where
  provider : Option MeterProvider
  name : String
deriving DecidableEq, Repr

/-- The text-map propagator from `autoprop.NewTextMapPropagator()`
(W3C trace context plus baggage, auto-selected from the environment). -/
inductive Propagator where
  | autoPropagator
deriving DecidableEq, Repr

/-- The structured log handler chain: the JSON handler writing to stdout,
optionally wrapped by the span-context decorator. -/
inductive LogHandler where
  | json
  | spanContext (inner : LogHandler)
deriving DecidableEq, Repr

/-- Process-wide mutable defaults touched by the package. -/
structure Globals where
  textMapPropagator : Option Propagator
  tracerProvider : Option TracerProvider
  meterProvider : Option MeterProvider
  logHandler : Option LogHandler
deriving DecidableEq, Repr

/-- The `Othell` struct from the source, field for field.  Go zero values
become the Lean defaults (`""`, `nil` pointers become `none`, `false`). -/
structure Othell where
  CollectorEndpoint : String := ""
  TraceProvider : Option TracerProvider := none
  MeterProvider : Option MeterProvider := none
  Tracer : Option Tracer := none
  Meter : Option Meter := none
  Resource : Option Resource := none
  DebugTracer : Bool := false
deriving DecidableEq, Repr

/-- `&Othell{}`: the zero-valued struct `New` starts from. -/
def zeroOthell : Othell := {}

/-- External collaborators, fixed for a process run: the GCE metadata server
(`metadata.OnGCE`, `metadata.ProjectIDWithContext`, `none` = error) and the
fallible constructors `autoexport.NewSpanExporter`, `stdouttrace.New`
(success recorded as a flag; the exporter itself is built at the call site),
and `autoexport.NewMetricReader` (`none` = error). -/
structure Env where
  onGCE : Bool
  gceProjectID : Option String
  spanExporter : Option SpanExporter
  consoleExporterOk : Bool
  metricReader : Option MetricReader
deriving DecidableEq, Repr

/-- `getProjectID`: query the GCE metadata server when on GCE, falling back
to the literal `"non-gcp"` when not on GCE or when the query errors. -/
def getProjectID (env : Env) : String :=
  if env.onGCE then
    match env.gceProjectID with
    | some id => id
    | none => "non-gcp"
  else "non-gcp"

/-- State of the module-level `projectID` variable: the cached value (set by
the package `init` function) and how many `ProjectIDWithContext` queries have
been issued. -/
structure ResolverState where
  cache : Option String
  queryCount : Nat
deriving DecidableEq, Repr

/-- Reading the environment identifier: a cached value is returned as is;
an empty cache triggers the one-time resolution (this is the package-load
`init()` in the source), counting a metadata query only when on GCE. -/
def readProjectID (env : Env) (s : ResolverState) : String × ResolverState :=
  match s.cache with
  | some v => (v, s)
  | none =>
      let v := getProjectID env
      (v, ⟨some v, s.queryCount + (if env.onGCE then 1 else 0)⟩)

/-- The three exported option constructors. -/
inductive Opt where
  | withCollectorEndpoint (endpoint : String)
  | withResource (res : Resource)
  | withDebugTracer
deriving DecidableEq, Repr

/-- Applying one option to the configuration struct, as each closure does. -/
def applyOpt (o : Othell) : Opt → Othell
  | .withCollectorEndpoint e => { o with CollectorEndpoint := e }
  | .withResource r => { o with Resource := some r }
  | .withDebugTracer => { o with DebugTracer := true }

/-- The option-application loop at the top of `New`. -/
def applyOpts (opts : List Opt) (o : Othell) : Othell :=
  opts.foldl applyOpt o

/-- Index of the scalar field of the configuration struct an option writes
(each exported option writes exactly one field). -/
def Opt.field : Opt → Nat
  | .withCollectorEndpoint _ => 0
  | .withResource _ => 1
  | .withDebugTracer => 2

/-- Errors returned by `New`, one constructor per `return err` site. -/
inductive InitError where
  | configurationError
  | spanExporterError
  | consoleExporterError
  | metricReaderError
deriving DecidableEq, Repr

/-- `initTracer`: installs the global propagator first, then builds the span
exporter; on success assembles the provider options (always-sample policy, a
batch processor over the exporter, the resource, and — only under
`DebugTracer` — a simple processor over a freshly built pretty-printing
console exporter), builds the provider and installs it globally. -/
def initTracer (env : Env) (g : Globals) (o : Othell) :
    Othell × Globals × Option InitError :=
  let g := { g with textMapPropagator := some .autoPropagator }
  match env.spanExporter with
  | none => (o, g, some .spanExporterError)
  | some ex =>
      if o.DebugTracer then
        if env.consoleExporterOk then
          let ce : ConsoleExporter := { pretty := true }
          let tp : TracerProvider :=
            { sampler := .alwaysSample
              processors := [.batch ex, .simple ce]
              res := o.Resource }
          ({ o with TraceProvider := some tp },
           { g with tracerProvider := some tp }, none)
        else (o, g, some .consoleExporterError)
      else
        let tp : TracerProvider :=
          { sampler := .alwaysSample
            processors := [.batch ex]
            res := o.Resource }
        ({ o with TraceProvider := some tp },
         { g with tracerProvider := some tp }, none)

/-- `initMeter`: builds the auto-detected metric reader, wraps it in a meter
provider bound to the same resource and installs it globally. -/
def initMeter (env : Env) (g : Globals) (o : Othell) :
    Othell × Globals × Option InitError :=
  match env.metricReader with
  | none => (o, g, some .metricReaderError)
  | some r =>
      let mp : MeterProvider := { reader := r, res := o.Resource }
      ({ o with MeterProvider := some mp },
       { g with meterProvider := some mp }, none)

/-- `initLogging`: wraps the JSON stdout handler in the span-context
decorator and installs it as the default; it never fails. -/
def initLogging (g : Globals) (o : Othell) :
    Othell × Globals × Option InitError :=
  (o, { g with logHandler := some (.spanContext .json) }, none)

/-- `otel.Tracer(name)`: a tracer named `name` from the current global
tracer provider. -/
def otelTracer (g : Globals) (name : String) : Tracer :=
  { provider := g.tracerProvider, name := name }

/-- `otel.Meter(name)`: a meter named `name` from the current global meter
provider. -/
def otelMeter (g : Globals) (name : String) : Meter :=
  { provider := g.meterProvider, name := name }

/-- Body of `New` after option application: the resource guard, then the
three initialization steps in order, each `return o, err` on failure, and
finally the named meter and tracer lookups. -/
def newBody (env : Env) (g : Globals) (name : String) (o : Othell) :
    (Option Othell × Option InitError) × Globals :=
  if o.Resource = none then
    ((none, some .configurationError), g)
  else
    match initTracer env g o with
    | (o, g, some e) => ((some o, some e), g)
    | (o, g, none) =>
        match initMeter env g o with
        | (o, g, some e) => ((some o, some e), g)
        | (o, g, none) =>
            match initLogging g o with
            | (o, g, some e) => ((some o, some e), g)
            | (o, g, none) =>
                let o := { o with
                  Meter := some (otelMeter g (name ++ "-meter"))
                  Tracer := some (otelTracer g (name ++ "-tracer")) }
                ((some o, none), g)

/-- `New(name, opts...)`: apply the options to a zero struct, then run the
body.  Returns the Go pair `(*Othell, error)` together with the final
process-wide globals. -/
def New (env : Env) (g : Globals) (name : String) (opts : List Opt) :
    (Option Othell × Option InitError) × Globals :=
  newBody env g name (applyOpts opts zeroOthell)

/-- Values carried by `slog` attributes, as far as the package inspects
them: strings, booleans, `slog.Level` numbers, times, or anything else
(tagged opaque). -/
inductive SlogValue where
  | str (s : String)
  | bool (b : Bool)
  | level (l : Int)
  | time (t : Int)
deriving DecidableEq, Repr

/-- `slog.LevelWarn` is the integer 4. -/
def levelWarn : Int := 4

/-- A `slog.Attr`. -/
structure Attr where
  key : String
  value : SlogValue
deriving DecidableEq, Repr

/-- A `slog.Record`: built-in time, level and message plus appended
attributes. -/
structure Record where
  time : Int
  level : Int
  message : String
  attrs : List Attr
deriving DecidableEq, Repr

/-- A `trace.SpanContext`: trace id, span id, the sampled trace flag, and
the validity bit the library computes (`IsValid`). -/
structure SpanContext where
  traceID : String
  spanID : String
  sampled : Bool
  valid : Bool
deriving DecidableEq, Repr

/-- `trace.SpanContextFromContext(ctx)`: the span context stored in the
ambient context, or the zero (invalid) span context when none is stored. -/
def spanContextFromContext : Option SpanContext → SpanContext
  | some s => s
  | none => { traceID := "", spanID := "", sampled := false, valid := false }

/-- `spanContextLogHandler.Handle`: the record this decorator passes to the
wrapped handler — when the ambient span context is valid, the three Cloud
Logging correlation attributes are appended (trace path built from the
resolved project id, span id, sampled flag); otherwise the record is
delegated unchanged. -/
def spanContextHandle (pid : String) (ctx : Option SpanContext)
    (record : Record) : Record :=
  let s := spanContextFromContext ctx
  if s.valid then
    { record with attrs := record.attrs ++
        [ { key := "logging.googleapis.com/trace"
            value := .str ("projects/" ++ pid ++ "/traces/" ++ s.traceID) },
          { key := "logging.googleapis.com/spanId", value := .str s.spanID },
          { key := "logging.googleapis.com/trace_sampled",
            value := .bool s.sampled } ] }
  else record

/-- The `ReplaceAttr` function `replacer`: renames `level`/`time`/`msg`
(the `slog` built-in keys) to `severity`/`timestamp`/`message`, rewriting a
warning level value to the literal `"WARNING"`.  The unchecked type
assertion `a.Value.Any().(slog.Level)` panics when a `level`-keyed
attribute does not hold a `slog.Level`; the panic is modelled as `none`. -/
def replacer (_groups : List String) (a : Attr) : Option Attr :=
  if a.key = "level" then
    match a.value with
    | .level l =>
        some { key := "severity"
               value := if l = levelWarn then .str "WARNING" else .level l }
    | _ => none
  else if a.key = "time" then some { a with key := "timestamp" }
  else if a.key = "msg" then some { a with key := "message" }
  else some a

/-- Setting the collector-endpoint field to the zero value; used to state
that results agree everywhere except that field. -/
def eraseEndpoint (o : Othell) : Othell := { o with CollectorEndpoint := "" }

/-! ## Helper lemmas -/

/-- Options other than `WithResource` leave the `Resource` field alone. -/
theorem applyOpts_resource (opts : List Opt) (o : Othell)
    (h : ∀ r, Opt.withResource r ∉ opts) :
    (applyOpts opts o).Resource = o.Resource := by
  induction opts generalizing o with
  | nil => rfl
  | cons a t ih =>
      have ht : ∀ r, Opt.withResource r ∉ t := by
        intro r hr
        exact h r (List.mem_cons_of_mem _ hr)
      have ha : ∀ r, a ≠ Opt.withResource r := by
        intro r hr
        exact h r (hr ▸ List.mem_cons_self a t)
      cases a with
      | withCollectorEndpoint e => simpa [applyOpts, List.foldl, applyOpt] using ih _ ht
      | withResource r => exact absurd rfl (ha r)
      | withDebugTracer => simpa [applyOpts, List.foldl, applyOpt] using ih _ ht

/-! ## Claims -/

/-- Claim C1: for every option set in which the resource option was never
supplied, `New` returns a configuration error, builds no handle, and leaves
every process-wide global (propagator, tracer provider, meter provider, log
handler) exactly as it was. -/
theorem c1_missing_resource_rejected (env : Env) (g : Globals) (name : String)
    (opts : List Opt) (h : ∀ r, Opt.withResource r ∉ opts) :
    New env g name opts = ((none, some .configurationError), g) := by
  have hres : (applyOpts opts zeroOthell).Resource = none :=
    applyOpts_resource opts zeroOthell h
  simp [New, newBody, hres]

/-- Witness for C1 at a concrete environment and an empty option list. -/
theorem c1_missing_resource_rejected_witness :
    New ⟨true, some "p", some ⟨0⟩, true, some ⟨0⟩⟩ ⟨none, none, none, none⟩
      "svc" [] =
      ((none, some .configurationError), ⟨none, none, none, none⟩) :=
  c1_missing_resource_rejected _ _ _ _ (by intro r hr; cases hr)

/-- Claim C2: the span-context decorator appends exactly the three Cloud
Logging correlation attributes (trace path `projects/<pid>/traces/<T>`, span
id, sampled flag) when the ambient span context is valid, and delegates the
record unchanged when the context holds an invalid span context or none at
all. -/
theorem c2_span_context_decoration (pid : String) (s : SpanContext)
    (r : Record) :
    (s.valid = true → spanContextHandle pid (some s) r =
      { r with attrs := r.attrs ++
          [ { key := "logging.googleapis.com/trace"
              value := .str ("projects/" ++ pid ++ "/traces/" ++ s.traceID) },
            { key := "logging.googleapis.com/spanId"
              value := .str s.spanID },
            { key := "logging.googleapis.com/trace_sampled"
              value := .bool s.sampled } ] })
    ∧ (s.valid = false → spanContextHandle pid (some s) r = r)
    ∧ spanContextHandle pid none r = r := by
  refine ⟨fun hv => ?_, fun hv => ?_, ?_⟩ <;>
    simp [spanContextHandle, spanContextFromContext, *]

/-- Witness for C2 at a concrete valid context, a concrete invalid one, and
the absent-context case. -/
theorem c2_span_context_decoration_witness :
    spanContextHandle "p" (some ⟨"t1", "s1", true, true⟩) ⟨0, 0, "m", []⟩ =
      ⟨0, 0, "m",
        [ ⟨"logging.googleapis.com/trace", .str "projects/p/traces/t1"⟩,
          ⟨"logging.googleapis.com/spanId", .str "s1"⟩,
          ⟨"logging.googleapis.com/trace_sampled", .bool true⟩ ]⟩
    ∧ spanContextHandle "p" (some ⟨"t1", "s1", true, false⟩) ⟨0, 0, "m", []⟩ =
        ⟨0, 0, "m", []⟩
    ∧ spanContextHandle "p" none ⟨0, 0, "m", []⟩ = ⟨0, 0, "m", []⟩ :=
  ⟨(c2_span_context_decoration "p" ⟨"t1", "s1", true, true⟩ ⟨0, 0, "m", []⟩).1
      rfl,
   (c2_span_context_decoration "p" ⟨"t1", "s1", true, false⟩
      ⟨0, 0, "m", []⟩).2.1 rfl,
   (c2_span_context_decoration "p" ⟨"t1", "s1", true, true⟩
      ⟨0, 0, "m", []⟩).2.2⟩

/-- Claim C3: `replacer` renames the `level` key to `severity` (rewriting a
warning level value to the literal `"WARNING"` and passing every other level
value through unchanged), the `time` key to `timestamp`, and the `msg` key
to `message`. -/
theorem c3_replacer_renames (groups : List String) (l : Int) (v : SlogValue) :
    replacer groups ⟨"level", .level l⟩ =
      some ⟨"severity", if l = levelWarn then .str "WARNING" else .level l⟩
    ∧ replacer groups ⟨"time", v⟩ = some ⟨"timestamp", v⟩
    ∧ replacer groups ⟨"msg", v⟩ = some ⟨"message", v⟩ := by
  refine ⟨rfl, ?_, ?_⟩ <;> simp [replacer]

/-- Claim C9: `replacer` is partial — a `level`-keyed attribute whose value
is not a `slog.Level` makes the unchecked type assertion fail (modelled as
`none`), so emitting such a record panics instead of passing the attribute
through. -/
theorem c9_replacer_level_assertion_panics (groups : List String)
    (v : SlogValue) (h : ∀ l, v ≠ .level l) :
    replacer groups ⟨"level", v⟩ = none := by
  cases v with
  | level l => exact absurd rfl (h l)
  | str s => rfl
  | bool b => rfl
  | time t => rfl

/-- Witness for C9: a user attribute named `level` holding a string. -/
theorem c9_replacer_level_assertion_panics_witness :
    replacer [] ⟨"level", .str "oops"⟩ = none :=
  c9_replacer_level_assertion_panics [] (.str "oops")
    (fun _ h => SlogValue.noConfusion h)

/-- Claim C4: on every successful run of `initTracer`, the built provider
always samples and carries, under the debug flag, exactly the batch
processor over the auto-detected exporter followed by a simple processor
over a pretty-printing console exporter and, without the flag, only the
batch processor. -/
theorem c4_processors (env : Env) (g : Globals) (o : Othell)
    (ex : SpanExporter) (hex : env.spanExporter = some ex) :
    (o.DebugTracer = true → env.consoleExporterOk = true →
      ∃ tp : TracerProvider,
        (initTracer env g o).1.TraceProvider = some tp
        ∧ (initTracer env g o).2.2 = none
        ∧ tp.processors = [.batch ex, .simple ⟨true⟩]
        ∧ tp.sampler = .alwaysSample)
    ∧ (o.DebugTracer = false →
      ∃ tp : TracerProvider,
        (initTracer env g o).1.TraceProvider = some tp
        ∧ (initTracer env g o).2.2 = none
        ∧ tp.processors = [.batch ex]
        ∧ tp.sampler = .alwaysSample) := by
  constructor
  · intro hdbg hcons
    exact ⟨⟨.alwaysSample, [.batch ex, .simple ⟨true⟩], o.Resource⟩,
      by simp [initTracer, hex, hdbg, hcons],
      by simp [initTracer, hex, hdbg, hcons], rfl, rfl⟩
  · intro hdbg
    exact ⟨⟨.alwaysSample, [.batch ex], o.Resource⟩,
      by simp [initTracer, hex, hdbg],
      by simp [initTracer, hex, hdbg], rfl, rfl⟩

/-- Witness for C4 at a concrete environment, in both flag states. -/
theorem c4_processors_witness :
    (∃ tp : TracerProvider,
      (initTracer ⟨true, some "p", some ⟨7⟩, true, some ⟨0⟩⟩
          ⟨none, none, none, none⟩
          { zeroOthell with Resource := some ⟨1⟩, DebugTracer := true
          }).1.TraceProvider = some tp
      ∧ tp.processors = [.batch ⟨7⟩, .simple ⟨true⟩])
    ∧ (∃ tp : TracerProvider,
      (initTracer ⟨true, some "p", some ⟨7⟩, true, some ⟨0⟩⟩
          ⟨none, none, none, none⟩
          { zeroOthell with Resource := some ⟨1⟩ }).1.TraceProvider = some tp
      ∧ tp.processors = [.batch ⟨7⟩]) := by
  constructor
  · obtain ⟨tp, h1, _, h3, _⟩ :=
      (c4_processors ⟨true, some "p", some ⟨7⟩, true, some ⟨0⟩⟩
        ⟨none, none, none, none⟩
        { zeroOthell with Resource := some ⟨1⟩, DebugTracer := true }
        ⟨7⟩ rfl).1 rfl rfl
    exact ⟨tp, h1, h3⟩
  · obtain ⟨tp, h1, _, h3, _⟩ :=
      (c4_processors ⟨true, some "p", some ⟨7⟩, true, some ⟨0⟩⟩
        ⟨none, none, none, none⟩
        { zeroOthell with Resource := some ⟨1⟩ } ⟨7⟩ rfl).2 rfl
    exact ⟨tp, h1, h3⟩

/-- Claim C5: when the tracer step succeeds but the meter step fails, `New`
returns an error, yet the final globals keep the tracer provider built in
the tracer step installed, together with the propagator — initialization is
not atomic with respect to global state. -/
theorem c5_partial_init_leaves_globals (env : Env) (g : Globals)
    (name : String) (opts : List Opt) (r : Resource) (ex : SpanExporter)
    (hres : (applyOpts opts zeroOthell).Resource = some r)
    (hex : env.spanExporter = some ex)
    (hcons : (applyOpts opts zeroOthell).DebugTracer = true →
      env.consoleExporterOk = true)
    (hmr : env.metricReader = none) :
    ∃ (o : Othell) (g' : Globals),
      New env g name opts = ((some o, some .metricReaderError), g')
      ∧ g'.tracerProvider = o.TraceProvider
      ∧ o.TraceProvider ≠ none
      ∧ g'.textMapPropagator = some .autoPropagator := by
  rcases hdbg : (applyOpts opts zeroOthell).DebugTracer with _ | _
  · refine
      ⟨{ applyOpts opts zeroOthell with
          TraceProvider := some ⟨.alwaysSample, [.batch ex],
            (applyOpts opts zeroOthell).Resource⟩ },
        { g with
            textMapPropagator := some .autoPropagator,
            tracerProvider :=
              some ⟨.alwaysSample, [.batch ex],
                (applyOpts opts zeroOthell).Resource⟩ },
        ?_, rfl, by simp, rfl⟩
    simp [New, newBody, initTracer, initMeter, hres, hex, hmr, hdbg]
  · have hok := hcons hdbg
    refine
      ⟨{ applyOpts opts zeroOthell with
          TraceProvider := some ⟨.alwaysSample, [.batch ex, .simple ⟨true⟩],
            (applyOpts opts zeroOthell).Resource⟩ },
        { g with
            textMapPropagator := some .autoPropagator,
            tracerProvider :=
              some ⟨.alwaysSample, [.batch ex, .simple ⟨true⟩],
                (applyOpts opts zeroOthell).Resource⟩ },
        ?_, rfl, by simp, rfl⟩
    simp [New, newBody, initTracer, initMeter, hres, hex, hmr, hdbg, hok]

/-- Witness for C5: a concrete run whose metric reader fails. -/
theorem c5_partial_init_leaves_globals_witness :
    ∃ (o : Othell) (g' : Globals),
      New ⟨true, some "p", some ⟨7⟩, true, none⟩ ⟨none, none, none, none⟩
        "svc" [.withResource ⟨1⟩] =
        ((some o, some .metricReaderError), g')
      ∧ g'.tracerProvider = o.TraceProvider
      ∧ o.TraceProvider ≠ none
      ∧ g'.textMapPropagator = some .autoPropagator :=
  c5_partial_init_leaves_globals ⟨true, some "p", some ⟨7⟩, true, none⟩
    ⟨none, none, none, none⟩ "svc" [.withResource ⟨1⟩] ⟨1⟩ ⟨7⟩ rfl rfl
    (fun h => by cases h) rfl

/-- Claim C7: on every successful run of `New` (resource supplied, both
auto-detected constructions succeed, console exporter succeeds when the
debug flag demands it), the returned handle's tracer is the globally
registered tracer named `name ++ "-tracer"` and its meter is the globally
registered meter named `name ++ "-meter"`, where the registered tracer
provider is exactly the one stored in the handle. -/
theorem c7_handle_names (env : Env) (g : Globals) (name : String)
    (opts : List Opt) (r : Resource) (ex : SpanExporter) (mr : MetricReader)
    (hres : (applyOpts opts zeroOthell).Resource = some r)
    (hex : env.spanExporter = some ex)
    (hcons : (applyOpts opts zeroOthell).DebugTracer = true →
      env.consoleExporterOk = true)
    (hmr : env.metricReader = some mr) :
    ∃ (o : Othell) (g' : Globals),
      New env g name opts = ((some o, none), g')
      ∧ o.Tracer = some (otelTracer g' (name ++ "-tracer"))
      ∧ o.Meter = some (otelMeter g' (name ++ "-meter"))
      ∧ g'.tracerProvider = o.TraceProvider
      ∧ g'.meterProvider = o.MeterProvider := by
  rcases hdbg : (applyOpts opts zeroOthell).DebugTracer with _ | _
  · refine
      ⟨{ applyOpts opts zeroOthell with
          TraceProvider :=
            some ⟨.alwaysSample, [.batch ex],
              (applyOpts opts zeroOthell).Resource⟩,
          MeterProvider := some ⟨mr, (applyOpts opts zeroOthell).Resource⟩,
          Meter := some ⟨some ⟨mr, (applyOpts opts zeroOthell).Resource⟩,
            name ++ "-meter"⟩,
          Tracer := some ⟨some ⟨.alwaysSample, [.batch ex],
            (applyOpts opts zeroOthell).Resource⟩, name ++ "-tracer"⟩ },
        ⟨some .autoPropagator,
          some ⟨.alwaysSample, [.batch ex],
            (applyOpts opts zeroOthell).Resource⟩,
          some ⟨mr, (applyOpts opts zeroOthell).Resource⟩,
          some (.spanContext .json)⟩,
        ?_, rfl, rfl, rfl, rfl⟩
    simp [New, newBody, initTracer, initMeter, initLogging, otelTracer,
      otelMeter, hres, hex, hmr, hdbg]
  · have hok := hcons hdbg
    refine
      ⟨{ applyOpts opts zeroOthell with
          TraceProvider :=
            some ⟨.alwaysSample, [.batch ex, .simple ⟨true⟩],
              (applyOpts opts zeroOthell).Resource⟩,
          MeterProvider := some ⟨mr, (applyOpts opts zeroOthell).Resource⟩,
          Meter := some ⟨some ⟨mr, (applyOpts opts zeroOthell).Resource⟩,
            name ++ "-meter"⟩,
          Tracer := some ⟨some ⟨.alwaysSample, [.batch ex, .simple ⟨true⟩],
            (applyOpts opts zeroOthell).Resource⟩, name ++ "-tracer"⟩ },
        ⟨some .autoPropagator,
          some ⟨.alwaysSample, [.batch ex, .simple ⟨true⟩],
            (applyOpts opts zeroOthell).Resource⟩,
          some ⟨mr, (applyOpts opts zeroOthell).Resource⟩,
          some (.spanContext .json)⟩,
        ?_, rfl, rfl, rfl, rfl⟩
    simp [New, newBody, initTracer, initMeter, initLogging, otelTracer,
      otelMeter, hres, hex, hmr, hdbg, hok]

/-- Witness for C7 at a concrete successful run. -/
theorem c7_handle_names_witness :
    ∃ (o : Othell) (g' : Globals),
      New ⟨true, some "p", some ⟨7⟩, true, some ⟨3⟩⟩ ⟨none, none, none, none⟩
        "svc" [.withResource ⟨1⟩] = ((some o, none), g')
      ∧ o.Tracer = some (otelTracer g' "svc-tracer")
      ∧ o.Meter = some (otelMeter g' "svc-meter")
      ∧ g'.tracerProvider = o.TraceProvider
      ∧ g'.meterProvider = o.MeterProvider :=
  c7_handle_names ⟨true, some "p", some ⟨7⟩, true, some ⟨3⟩⟩
    ⟨none, none, none, none⟩ "svc" [.withResource ⟨1⟩] ⟨1⟩ ⟨7⟩ ⟨3⟩ rfl rfl
    (fun h => by cases h) rfl

/-- Claim C6: the environment resolver queries the metadata source at most
once per process — after the one-time resolution every read returns the
identical cached value with no further query and no state change — it never
surfaces an error, and whenever the platform query is not applicable
(`OnGCE` false) or fails, the resolved value is the sentinel `"non-gcp"`. -/
theorem c6_resolver_cached_once :
    (∀ (env : Env) (v : String) (s : ResolverState), s.cache = some v →
      readProjectID env s = (v, s))
    ∧ (∀ env : Env,
        (readProjectID env ⟨none, 0⟩).1 =
          (readProjectID env (readProjectID env ⟨none, 0⟩).2).1
        ∧ (readProjectID env (readProjectID env ⟨none, 0⟩).2).2 =
            (readProjectID env ⟨none, 0⟩).2
        ∧ (readProjectID env ⟨none, 0⟩).2.queryCount ≤ 1
        ∧ (readProjectID env ⟨none, 0⟩).2.cache = some (getProjectID env)
        ∧ (readProjectID env ⟨none, 0⟩).1 = getProjectID env)
    ∧ (∀ env : Env, env.onGCE = false → getProjectID env = "non-gcp")
    ∧ (∀ env : Env, env.gceProjectID = none → getProjectID env = "non-gcp") := by
  refine ⟨?_, ?_, ?_, ?_⟩
  · intro env v s h
    simp [readProjectID, h]
  · intro env
    refine ⟨rfl, rfl, ?_, rfl, rfl⟩
    rcases h : env.onGCE with _ | _ <;> simp [readProjectID, h]
  · intro env h
    simp [getProjectID, h]
  · intro env h
    rcases hg : env.onGCE with _ | _ <;> simp [getProjectID, h, hg]

/-- Witness for C6: a cached read at a concrete state, and the sentinel on
a concrete off-platform environment. -/
theorem c6_resolver_cached_once_witness :
    readProjectID ⟨false, none, none, false, none⟩ ⟨some "p", 1⟩ =
      ("p", ⟨some "p", 1⟩)
    ∧ getProjectID ⟨false, none, none, false, none⟩ = "non-gcp"
    ∧ getProjectID ⟨true, none, none, false, none⟩ = "non-gcp" :=
  ⟨c6_resolver_cached_once.1 ⟨false, none, none, false, none⟩ "p"
      ⟨some "p", 1⟩ rfl,
   c6_resolver_cached_once.2.2.1 ⟨false, none, none, false, none⟩ rfl,
   c6_resolver_cached_once.2.2.2 ⟨true, none, none, false, none⟩ rfl⟩

/-- Counterexample for C8: the claim that any permutation of the option list
yields the same configuration is false — two writes to the collector
endpoint field do not commute, precisely because the last write wins. -/
theorem c8_perm_counterexample :
    List.Perm [Opt.withCollectorEndpoint "a", Opt.withCollectorEndpoint "b"]
      [Opt.withCollectorEndpoint "b", Opt.withCollectorEndpoint "a"]
    ∧ applyOpts [Opt.withCollectorEndpoint "a", Opt.withCollectorEndpoint "b"]
        zeroOthell ≠
      applyOpts [Opt.withCollectorEndpoint "b", Opt.withCollectorEndpoint "a"]
        zeroOthell :=
  ⟨List.Perm.swap _ _ _, by decide⟩

/-- Claim C8 (amended): two options writing distinct fields commute — so
permutations that only reorder writes to distinct fields preserve the
configuration — and when two options write the same scalar field the last
write wins (the final write determines the field). -/
theorem c8_option_application_order (a b : Opt) (c : Othell) (opts : List Opt)
    (e : String) (r : Resource)
    (hab : a.field ≠ b.field) :
    applyOpt (applyOpt c a) b = applyOpt (applyOpt c b) a
    ∧ (applyOpts (opts ++ [.withCollectorEndpoint e]) c).CollectorEndpoint = e
    ∧ (applyOpts (opts ++ [.withResource r]) c).Resource = some r
    ∧ (applyOpts (opts ++ [.withDebugTracer]) c).DebugTracer = true := by
  refine ⟨?_, ?_, ?_, ?_⟩
  · cases a <;> cases b <;> first
      | exact absurd rfl hab
      | rfl
  · simp [applyOpts, List.foldl_append, applyOpt]
  · simp [applyOpts, List.foldl_append, applyOpt]
  · simp [applyOpts, List.foldl_append, applyOpt]

/-- Witness for C8 (amended) at concrete options and option lists. -/
theorem c8_option_application_order_witness :
    applyOpt (applyOpt zeroOthell (.withCollectorEndpoint "a")) .withDebugTracer
      = applyOpt (applyOpt zeroOthell .withDebugTracer)
          (.withCollectorEndpoint "a")
    ∧ (applyOpts [.withCollectorEndpoint "a", .withCollectorEndpoint "b"]
        zeroOthell).CollectorEndpoint = "b" := by
  have h := c8_option_application_order (.withCollectorEndpoint "a")
    .withDebugTracer zeroOthell [.withCollectorEndpoint "a"] "b" ⟨0⟩
    (by simp [Opt.field])
  exact ⟨h.1, h.2.1⟩

/-- The `New` body never reads the collector-endpoint field: overwriting it
changes neither the final globals nor the returned error, and changes the
returned handle only in that stored field. -/
theorem newBody_ignores_endpoint (env : Env) (g : Globals) (name : String)
    (c : Othell) (e : String) :
    (newBody env g name { c with CollectorEndpoint := e }).2 =
      (newBody env g name c).2
    ∧ (newBody env g name { c with CollectorEndpoint := e }).1.2 =
        (newBody env g name c).1.2
    ∧ Option.map eraseEndpoint
        (newBody env g name { c with CollectorEndpoint := e }).1.1 =
      Option.map eraseEndpoint (newBody env g name c).1.1 := by
  obtain ⟨ce, tp, mp, tr, mt, res, dbg⟩ := c
  obtain ⟨onGCE, gpid, spanE, consOk, mR⟩ := env
  cases res <;> cases spanE <;> cases dbg <;> cases consOk <;> cases mR <;>
    simp [newBody, initTracer, initMeter, initLogging, eraseEndpoint,
      otelTracer, otelMeter]

/-- Claim C10: the collector-endpoint option has no observable effect beyond
storage — applying it sets exactly the `CollectorEndpoint` field, and a run
of `New` with the option appended has the same final globals, the same
error, and a handle equal to the other run's handle up to that stored
field. -/
theorem c10_endpoint_no_effect :
    (∀ (c : Othell) (e : String),
      applyOpt c (.withCollectorEndpoint e) = { c with CollectorEndpoint := e })
    ∧ (∀ (env : Env) (g : Globals) (name : String) (opts : List Opt)
        (e : String),
        (New env g name (opts ++ [.withCollectorEndpoint e])).2 =
          (New env g name opts).2
        ∧ (New env g name (opts ++ [.withCollectorEndpoint e])).1.2 =
            (New env g name opts).1.2
        ∧ Option.map eraseEndpoint
            (New env g name (opts ++ [.withCollectorEndpoint e])).1.1 =
          Option.map eraseEndpoint (New env g name opts).1.1) := by
  refine ⟨fun c e => rfl, fun env g name opts e => ?_⟩
  have hA : applyOpts (opts ++ [.withCollectorEndpoint e]) zeroOthell =
      { applyOpts opts zeroOthell with CollectorEndpoint := e } := by
    simp [applyOpts, List.foldl_append, applyOpt]
  simp only [New, hA]
  exact newBody_ignores_endpoint env g name (applyOpts opts zeroOthell) e

end Othell
